import Mathlib

/-!
Shallow embedding of the client-side core of the TypeDB driver described by
`src/driver/typedb_ffi.h` and the accompanying specification.  The repository
ships only the boundary declarations (the C header); the bodies of the
operations live outside the repository, so each operational definition below
is modelled from the specification text, keeping the names and the
argument/result shapes of the header.  Server-side nondeterminism (network
failure, commit conflicts, query outcomes) is made explicit as parameters.
-/

namespace TypeDB

/-- Modelled from the spec: the error taxonomy of section 7; the
implementation behind the header is missing from the repository. -/
inductive ErrKind
  | ConfigurationError
  | ConnectionError
  | StateError
  | DatabaseError
  | TransactionError
  | QueryError
  deriving DecidableEq

/-- Modelled from the spec: the human-readable message stored in the
`err_out` channel for each error kind. -/
def errMsg : ErrKind → String
  | .ConfigurationError => "configuration error: inconsistent TLS parameters"
  | .ConnectionError => "connection error: failed to establish session"
  | .StateError => "state error: operation on a closed or consumed handle"
  | .DatabaseError => "database error: catalog operation rejected"
  | .TransactionError => "transaction error: conflict or server rejection"
  | .QueryError => "query error: query execution failed"

/-- Whether an `Except` result is a success. -/
def isOkE {α : Type} : Except ErrKind α → Bool
  | .ok _ => true
  | .error _ => false

/-- Modelled from the spec: the `err_out` channel convention.  A result
`res`, an incoming channel content `eIn` and an outgoing content `eOut`
satisfy the convention when success leaves the channel untouched and failure
stores the message of the reported error. -/
def errChannelOk {α : Type} (res : Except ErrKind α) (eIn eOut : Option String) : Prop :=
  (isOkE res = true → eOut = eIn) ∧ ∀ err, res = .error err → eOut = some (errMsg err)

/-- Modelled from the spec: Credentials are username plus secret, immutable
once created (typedb_credentials_new in the header has no body in the
repository). -/
structure Credentials where
  username : String
  password : String
  deriving DecidableEq

/-- Modelled from the spec: credentials construction cannot fail. -/
def typedb_credentials_new (username password : String) : Credentials :=
  ⟨username, password⟩

/-- Modelled from the spec: releasing credentials always succeeds and
reports nothing. -/
def typedb_credentials_drop (_ : Credentials) : Unit := ()

/-- Modelled from the spec: ConnectionOptions are a TLS enablement flag plus
an optional root CA path. -/
structure DriverOptions where
  isTlsEnabled : Bool
  tlsRootCa : Option String
  deriving DecidableEq

/-- Modelled from the spec: the TLS parameters are inconsistent when a root
CA path is given while TLS is disabled. -/
def tlsInconsistent (isTlsEnabled : Bool) (tlsRootCa : Option String) : Bool :=
  !isTlsEnabled && tlsRootCa.isSome

/-- Modelled from the spec: ConnectionOptions construction validates the TLS
parameters and fails with ConfigurationError when they are inconsistent;
the body behind the header declaration is missing from the repository. -/
def typedb_driver_options_new (isTlsEnabled : Bool) (tlsRootCa : Option String)
    (errOut : Option String) : Except ErrKind DriverOptions × Option String :=
  if tlsInconsistent isTlsEnabled tlsRootCa then
    (.error .ConfigurationError, some (errMsg .ConfigurationError))
  else
    (.ok ⟨isTlsEnabled, tlsRootCa⟩, errOut)

/-- Modelled from the spec: releasing connection options always succeeds. -/
def typedb_driver_options_drop (_ : DriverOptions) : Unit := ()

/-- Modelled from the spec: TransactionOptions hold two optional durations. -/
structure TransactionOptions where
  timeoutMillis : Option Int
  schemaLockTimeoutMillis : Option Int
  deriving DecidableEq

/-- Modelled from the spec: transaction options construction cannot fail. -/
def typedb_transaction_options_new : TransactionOptions :=
  ⟨none, none⟩

/-- Modelled from the spec: setters on option builders mutate in place and
return no error. -/
def typedb_transaction_options_set_timeout (opts : TransactionOptions)
    (timeoutMillis : Int) : TransactionOptions :=
  { opts with timeoutMillis := some timeoutMillis }

/-- Modelled from the spec: setter for the schema lock timeout. -/
def typedb_transaction_options_set_schema_lock_timeout (opts : TransactionOptions)
    (timeoutMillis : Int) : TransactionOptions :=
  { opts with schemaLockTimeoutMillis := some timeoutMillis }

/-- Modelled from the spec: releasing transaction options always succeeds. -/
def typedb_transaction_options_drop (_ : TransactionOptions) : Unit := ()

/-- Modelled from the spec: QueryOptions hold an include-instance-types flag
and an optional prefetch size. -/
structure QueryOptions where
  includeInstanceTypes : Option Bool
  prefetchSize : Option Int
  deriving DecidableEq

/-- Modelled from the spec: query options construction cannot fail. -/
def typedb_query_options_new : QueryOptions :=
  ⟨none, none⟩

/-- Modelled from the spec: setter for the include-instance-types flag. -/
def typedb_query_options_set_include_instance_types (opts : QueryOptions)
    (include_ : Bool) : QueryOptions :=
  { opts with includeInstanceTypes := some include_ }

/-- Modelled from the spec: setter for the prefetch size. -/
def typedb_query_options_set_prefetch_size (opts : QueryOptions)
    (size : Int) : QueryOptions :=
  { opts with prefetchSize := some size }

/-- Modelled from the spec: releasing query options always succeeds. -/
def typedb_query_options_drop (_ : QueryOptions) : Unit := ()

/-- Modelled from the spec: a Connection has an open/closed flag, an address
and (through the server it talks to) a database catalog; the body behind the
header is missing from the repository, and the server catalog is folded into
the handle state to make catalog operations stateful. -/
structure Driver where
  isOpen : Bool
  address : String
  databases : List String
  deriving DecidableEq

/-- Modelled from the spec: opening a connection fails with ConnectionError
on network or auth failure, allocating nothing; on success it returns an
open connection.  `net` abstracts the black-box transport succeeding and
`serverDbs` the catalog already present on the server. -/
def typedb_driver_open (net : Bool) (address : String) (_ : Credentials)
    (_ : DriverOptions) (serverDbs : List String) (errOut : Option String) :
    Except ErrKind Driver × Option String :=
  if net then
    (.ok ⟨true, address, serverDbs⟩, errOut)
  else
    (.error .ConnectionError, some (errMsg .ConnectionError))

/-- Modelled from the spec: is_open is a cheap local check that never fails
(const handle in the header). -/
def typedb_driver_is_open (driver : Driver) : Bool :=
  driver.isOpen

/-- Modelled from the spec: closing a connection marks it closed; it returns
void and reports nothing. -/
def typedb_driver_close (driver : Driver) : Driver :=
  { driver with isOpen := false }

/-- Modelled from the spec: list_databases requires the connection to be
open (else StateError) and may fail with DatabaseError on network failure;
on success it returns the serialized catalog. -/
def typedb_databases_all (net : Bool) (driver : Driver) (errOut : Option String) :
    Except ErrKind String × Option String :=
  if driver.isOpen then
    if net then
      (.ok (String.intercalate "," driver.databases), errOut)
    else
      (.error .DatabaseError, some (errMsg .DatabaseError))
  else
    (.error .StateError, some (errMsg .StateError))

/-- Modelled from the spec: create_database requires an open connection
(else StateError), fails with DatabaseError on network failure or when the
name already exists, and otherwise adds the name to the catalog. -/
def typedb_databases_create (net : Bool) (driver : Driver) (name : String)
    (errOut : Option String) : Except ErrKind Unit × Driver × Option String :=
  if driver.isOpen then
    if net then
      if name ∈ driver.databases then
        (.error .DatabaseError, driver, some (errMsg .DatabaseError))
      else
        (.ok (), { driver with databases := name :: driver.databases }, errOut)
    else
      (.error .DatabaseError, driver, some (errMsg .DatabaseError))
  else
    (.error .StateError, driver, some (errMsg .StateError))

/-- Modelled from the spec: database_exists requires an open connection
(else StateError), may fail with DatabaseError on network failure, and
otherwise answers catalog membership. -/
def typedb_databases_contains (net : Bool) (driver : Driver) (name : String)
    (errOut : Option String) : Except ErrKind Bool × Option String :=
  if driver.isOpen then
    if net then
      (.ok (decide (name ∈ driver.databases)), errOut)
    else
      (.error .DatabaseError, some (errMsg .DatabaseError))
  else
    (.error .StateError, some (errMsg .StateError))

/-- Modelled from the spec: database_schema requires an open connection
(else StateError) and fails with DatabaseError on network failure or when
the database is not found; the schema text itself is owned by the excluded
wire-protocol layer. -/
def typedb_database_schema (net : Bool) (driver : Driver) (name : String)
    (errOut : Option String) : Except ErrKind String × Option String :=
  if driver.isOpen then
    if net then
      if name ∈ driver.databases then
        (.ok ("define " ++ name), errOut)
      else
        (.error .DatabaseError, some (errMsg .DatabaseError))
    else
      (.error .DatabaseError, some (errMsg .DatabaseError))
  else
    (.error .StateError, some (errMsg .StateError))

/-- Modelled from the spec: delete_database requires an open connection
(else StateError), fails with DatabaseError on network failure or when the
database is not found, and otherwise removes the name from the catalog. -/
def typedb_database_delete (net : Bool) (driver : Driver) (name : String)
    (errOut : Option String) : Except ErrKind Unit × Driver × Option String :=
  if driver.isOpen then
    if net then
      if name ∈ driver.databases then
        (.ok (), { driver with databases := driver.databases.filter (fun y => decide (y ≠ name)) },
          errOut)
      else
        (.error .DatabaseError, driver, some (errMsg .DatabaseError))
    else
      (.error .DatabaseError, driver, some (errMsg .DatabaseError))
  else
    (.error .StateError, driver, some (errMsg .StateError))

/-- Modelled from the spec: the transaction lifecycle states; Open is the
only non-terminal state. -/
inductive TxnState
  | Open
  | Committed
  | RolledBack
  | Closed
  deriving DecidableEq

/-- A transaction state is terminal when it is not Open. -/
def TxnState.isTerminal : TxnState → Bool
  | .Open => false
  | .Committed => true
  | .RolledBack => true
  | .Closed => true

/-- Modelled from the spec: the declared transaction kinds. -/
inductive TxnKind
  | readKind
  | writeKind
  | schemaKind
  deriving DecidableEq

/-- Modelled from the spec: decoding of the int transaction_type argument of
the header into a declared kind. -/
def decodeTxnKind (transaction_type : Int) : TxnKind :=
  if transaction_type = 0 then .readKind
  else if transaction_type = 1 then .writeKind
  else .schemaKind

/-- Modelled from the spec: a Transaction belongs to one database, has a
declared kind, a lifecycle state, and holds the options used to create it;
the body behind the header is missing from the repository. -/
structure Transaction where
  state : TxnState
  database : String
  kind : TxnKind
  options : TransactionOptions
  deriving DecidableEq

/-- Modelled from the spec: an opaque byte-encoded query result plus its
length; the payload format is owned by the excluded wire-protocol layer. -/
structure QueryResult where
  bytes : List Nat
  deriving DecidableEq

/-- The out_len value paired with a returned result buffer. -/
def QueryResult.len (r : QueryResult) : Nat :=
  r.bytes.length

/-- Modelled from the spec: the black-box encoding of a query answer. -/
def encodeResult (query : String) : QueryResult :=
  ⟨query.toList.map Char.toNat⟩

/-- Modelled from the spec: opening a transaction fails with StateError when
the connection is closed and with TransactionError on server rejection
(abstracted by `net`); on success the transaction starts Open. -/
def typedb_transaction_open (net : Bool) (driver : Driver) (database_name : String)
    (transaction_type : Int) (opts : TransactionOptions) (errOut : Option String) :
    Except ErrKind Transaction × Option String :=
  if driver.isOpen then
    if net then
      (.ok ⟨.Open, database_name, decodeTxnKind transaction_type, opts⟩, errOut)
    else
      (.error .TransactionError, some (errMsg .TransactionError))
  else
    (.error .StateError, some (errMsg .StateError))

/-- Modelled from the spec: transaction is_open is a local state check that
never fails (const handle in the header). -/
def typedb_transaction_is_open (txn : Transaction) : Bool :=
  decide (txn.state = .Open)

/-- Modelled from the spec: a synchronous query fails with StateError when
the transaction is not open and with QueryError on execution failure
(abstracted by `net`); it does not change the lifecycle state. -/
def typedb_transaction_query (net : Bool) (txn : Transaction) (query : String)
    (_ : QueryOptions) (errOut : Option String) :
    Except ErrKind QueryResult × Transaction × Option String :=
  if txn.state = .Open then
    if net then
      (.ok (encodeResult query), txn, errOut)
    else
      (.error .QueryError, txn, some (errMsg .QueryError))
  else
    (.error .StateError, txn, some (errMsg .StateError))

/-- Modelled from the spec: commit requires an Open transaction (else
StateError); it moves to Committed on success and, on conflict or server
rejection (abstracted by `net`), reports TransactionError and leaves the
transaction Closed, never retrying by itself. -/
def typedb_transaction_commit (net : Bool) (txn : Transaction) (errOut : Option String) :
    Except ErrKind Unit × Transaction × Option String :=
  if txn.state = .Open then
    if net then
      (.ok (), { txn with state := .Committed }, errOut)
    else
      (.error .TransactionError, { txn with state := .Closed }, some (errMsg .TransactionError))
  else
    (.error .StateError, txn, some (errMsg .StateError))

/-- Modelled from the spec: rollback moves an Open transaction to
RolledBack, may still be called on a transaction already closed by failure
(without reopening it), and fails with StateError after Committed. -/
def typedb_transaction_rollback (txn : Transaction) (errOut : Option String) :
    Except ErrKind Unit × Transaction × Option String :=
  if txn.state = .Committed then
    (.error .StateError, txn, some (errMsg .StateError))
  else if txn.state = .Open then
    (.ok (), { txn with state := .RolledBack }, errOut)
  else
    (.ok (), txn, errOut)

/-- Modelled from the spec: close releases local resources without
committing, an implicit rollback when not already terminal; it always
succeeds locally and has no error channel. -/
def typedb_transaction_close (txn : Transaction) : Transaction :=
  if txn.state = .Open then { txn with state := .Closed } else txn

/-- Modelled from the spec: the lifecycle states of a PendingQuery. -/
inductive FutureState
  | Pending
  | Ready
  | Resolved
  | Aborted
  deriving DecidableEq

/-- A future state is consumed when it was resolved or aborted. -/
def FutureState.isConsumed : FutureState → Bool
  | .Pending => false
  | .Ready => false
  | .Resolved => true
  | .Aborted => true

/-- Modelled from the spec: a PendingQuery carries its lifecycle state and
the eventual outcome of the underlying execution (`none` when the
underlying query failed); the body behind the header is missing from the
repository. -/
structure PendingQuery where
  state : FutureState
  outcome : Option QueryResult
  deriving DecidableEq

/-- Modelled from the spec: async submission fails synchronously with
StateError exactly when the transaction is not open, before any
asynchronous work begins; on success it returns a Pending handle whose
eventual outcome `serverOutcome` is produced by the black-box transport. -/
def typedb_transaction_query_async (txn : Transaction) (_ : String)
    (serverOutcome : Option QueryResult) (_ : QueryOptions) (errOut : Option String) :
    Except ErrKind PendingQuery × Transaction × Option String :=
  if txn.state = .Open then
    (.ok ⟨.Pending, serverOutcome⟩, txn, errOut)
  else
    (.error .StateError, txn, some (errMsg .StateError))

/-- Modelled from the spec: the transport completing the underlying
execution moves a Pending future to Ready. -/
def futureComplete (future : PendingQuery) : PendingQuery :=
  if future.state = .Pending then { future with state := .Ready } else future

/-- Modelled from the spec: is_ready is a non-blocking poll that never
fails (const handle in the header). -/
def typedb_future_is_ready (future : PendingQuery) : Bool :=
  decide (future.state = .Ready)

/-- Modelled from the spec: resolve consumes the PendingQuery, returning
the result or QueryError from the underlying execution, and fails with
StateError on a handle already resolved or aborted. -/
def typedb_future_resolve (future : PendingQuery) (errOut : Option String) :
    Except ErrKind QueryResult × PendingQuery × Option String :=
  if future.state.isConsumed then
    (.error .StateError, future, some (errMsg .StateError))
  else
    match future.outcome with
    | some r => (.ok r, { future with state := .Resolved }, errOut)
    | none => (.error .QueryError, { future with state := .Resolved }, some (errMsg .QueryError))

/-- Modelled from the spec: abort is a best-effort cancellation consuming
the handle; it returns void and reports nothing. -/
def typedb_future_abort (future : PendingQuery) : PendingQuery :=
  if future.state.isConsumed then future else { future with state := .Aborted }

/-- Modelled from the spec: drop releases the handle without resolving, an
implicit abort when not already terminal. -/
def typedb_future_drop (future : PendingQuery) : PendingQuery :=
  if future.state.isConsumed then future else { future with state := .Aborted }

/-- Modelled from the spec: releasing a returned string always succeeds. -/
def typedb_free_string (_ : String) : Unit := ()

/-- Modelled from the spec: releasing a returned byte buffer always
succeeds. -/
def typedb_free_bytes (_ : List Nat) (_ : Nat) : Unit := ()

/-- Modelled from the spec: logging initialization is a one-time
process-wide side effect with no return value. -/
def typedb_init_logging : Unit := ()

/-- The boundary operations acting on a single Transaction handle, used to
state lifecycle invariants uniformly. -/
inductive TxnOp
  | queryOp (net : Bool) (query : String) (opts : QueryOptions) (errOut : Option String)
  | queryAsyncOp (query : String) (serverOutcome : Option QueryResult)
      (opts : QueryOptions) (errOut : Option String)
  | commitOp (net : Bool) (errOut : Option String)
  | rollbackOp (errOut : Option String)
  | closeOp

/-- The transaction state reached by one boundary operation. -/
def txnStep : TxnOp → Transaction → Transaction
  | .queryOp net q opts e, txn => (typedb_transaction_query net txn q opts e).2.1
  | .queryAsyncOp q oc opts e, txn => (typedb_transaction_query_async txn q oc opts e).2.1
  | .commitOp net e, txn => (typedb_transaction_commit net txn e).2.1
  | .rollbackOp e, txn => (typedb_transaction_rollback txn e).2.1
  | .closeOp, txn => typedb_transaction_close txn

/-- The three const-handle state observers of the header. -/
inductive Observer
  | driverIsOpen
  | txnIsOpen
  | futureIsReady

/-- A world holding one handle of each observable sort. -/
structure World where
  driver : Driver
  txn : Transaction
  future : PendingQuery
  deriving DecidableEq

/-- The value and state effect of one observer call. -/
def observe : Observer → World → Bool × World
  | .driverIsOpen, w => (typedb_driver_is_open w.driver, w)
  | .txnIsOpen, w => (typedb_transaction_is_open w.txn, w)
  | .futureIsReady, w => (typedb_future_is_ready w.future, w)

/-- The state reached after a sequence of observer calls. -/
def runObservers (os : List Observer) (w : World) : World :=
  os.foldl (fun w1 o => (observe o w1).2) w

/-- A concrete open transaction used by witnesses. -/
def sampleTxnOpen : Transaction :=
  ⟨.Open, "test", .writeKind, typedb_transaction_options_new⟩

/-- A concrete closed transaction used by witnesses. -/
def sampleTxnClosed : Transaction :=
  ⟨.Closed, "test", .writeKind, typedb_transaction_options_new⟩

/-- A concrete open driver with an empty catalog used by witnesses. -/
def sampleDriver0 : Driver :=
  ⟨true, "localhost:1729", []⟩

/-- A concrete closed driver used by witnesses. -/
def sampleDriverClosed : Driver :=
  ⟨false, "localhost:1729", []⟩

/-- The catalog state after creating database x on sampleDriver0. -/
def sampleDriverX : Driver :=
  ⟨true, "localhost:1729", ["x"]⟩

/-- A concrete pending future used by witnesses. -/
def samplePending : PendingQuery :=
  ⟨.Pending, some (encodeResult "match")⟩

/-- Concrete credentials used by witnesses. -/
def sampleCreds : Credentials :=
  typedb_credentials_new "admin" "password"

/-- Concrete connection options used by witnesses. -/
def sampleDOpts : DriverOptions :=
  ⟨true, none⟩

/-- A success result with an untouched channel satisfies the convention. -/
theorem errChannelOk_ok {α : Type} (a : α) (e : Option String) :
    errChannelOk (.ok a) e e :=
  ⟨fun _ => rfl, fun _ h => nomatch h⟩

/-- A failure result with the matching message stored satisfies the
convention. -/
theorem errChannelOk_error {α : Type} (err : ErrKind) (eIn : Option String) :
    errChannelOk (α := α) (.error err) eIn (some (errMsg err)) :=
  ⟨fun h => (nomatch h), fun e2 h => by injection h with h2; rw [h2]⟩

/-- Every transaction state is Open or terminal. -/
theorem txnState_open_or_terminal (s : TxnState) : s = .Open ∨ s.isTerminal = true := by
  cases s <;> simp [TxnState.isTerminal]

/-- One observer call leaves the world unchanged. -/
theorem observe_state_fixed (o : Observer) (w : World) : (observe o w).2 = w := by
  cases o <;> rfl

/-- Any sequence of observer calls leaves the world unchanged. -/
theorem runObservers_fixed (os : List Observer) (w : World) : runObservers os w = w := by
  induction os generalizing w with
  | nil => rfl
  | cons o os ih =>
      show runObservers os (observe o w).2 = w
      rw [observe_state_fixed]
      exact ih w

/-- C1: the transaction lifecycle is one-way.  Once a Transaction is in a
terminal state no boundary operation moves it anywhere (in particular not
back to Open or to another terminal state), from Open it can only stay Open
or enter a terminal state, and in a terminal state typedb_transaction_query
never succeeds. -/
theorem C1_transaction_lifecycle_one_way (op : TxnOp) (t : Transaction) :
    (t.state.isTerminal = true → txnStep op t = t) ∧
    (t.state = .Open → (txnStep op t).state = .Open ∨ (txnStep op t).state.isTerminal = true) ∧
    (t.state.isTerminal = true →
      ∀ (net : Bool) (q : String) (qopts : QueryOptions) (e : Option String),
        (typedb_transaction_query net t q qopts e).1 = .error .StateError) := by
  obtain ⟨s, db, k, o⟩ := t
  refine ⟨?_, ?_, ?_⟩
  · intro h
    cases s with
    | Open => simp [TxnState.isTerminal] at h
    | Committed => cases op <;> rfl
    | RolledBack => cases op <;> rfl
    | Closed => cases op <;> rfl
  · intro _
    exact txnState_open_or_terminal _
  · intro h net q qopts e
    cases s with
    | Open => simp [TxnState.isTerminal] at h
    | Committed => rfl
    | RolledBack => rfl
    | Closed => rfl

/-- Witness for C1 at a concrete closed transaction. -/
theorem C1_witness :
    txnStep TxnOp.closeOp sampleTxnClosed = sampleTxnClosed ∧
    (typedb_transaction_query true sampleTxnClosed "match" typedb_query_options_new none).1 =
      .error .StateError :=
  ⟨(C1_transaction_lifecycle_one_way .closeOp sampleTxnClosed).1 rfl,
   (C1_transaction_lifecycle_one_way .closeOp sampleTxnClosed).2.2 rfl true "match"
     typedb_query_options_new none⟩

/-- C5: a successful typedb_driver_open yields a connection on which
typedb_driver_is_open returns true, after typedb_driver_close it returns
false, and typedb_driver_is_open is a total read of the stored flag, so it
never fails. -/
theorem C5_driver_open_close_observed (net : Bool) (addr : String) (c : Credentials)
    (opts : DriverOptions) (dbs : List String) (e eo : Option String) (d : Driver) :
    (typedb_driver_open net addr c opts dbs e = (.ok d, eo) →
      typedb_driver_is_open d = true) ∧
    typedb_driver_is_open (typedb_driver_close d) = false ∧
    typedb_driver_is_open d = d.isOpen := by
  refine ⟨?_, rfl, rfl⟩
  intro h
  unfold typedb_driver_open at h
  split at h
  · injection h with h1 h2
    injection h1 with h3
    subst h3
    rfl
  · simp at h

/-- Witness for C5 at a concrete successful open. -/
theorem C5_witness :
    typedb_driver_is_open sampleDriver0 = true ∧
    typedb_driver_is_open (typedb_driver_close sampleDriver0) = false :=
  ⟨(C5_driver_open_close_observed true "localhost:1729" sampleCreds sampleDOpts [] none none
      sampleDriver0).1 rfl,
   (C5_driver_open_close_observed true "localhost:1729" sampleCreds sampleDOpts [] none none
      sampleDriver0).2.1⟩

/-- C7: typedb_driver_options_new fails with ConfigurationError exactly when
the TLS parameters are inconsistent, and the other option constructors are
total functions that cannot fail on any input. -/
theorem C7_option_constructors (tls : Bool) (ca e : Option String) (u p : String) :
    (tlsInconsistent tls ca = true →
      typedb_driver_options_new tls ca e =
        (.error .ConfigurationError, some (errMsg .ConfigurationError))) ∧
    (tlsInconsistent tls ca = false →
      typedb_driver_options_new tls ca e = (.ok ⟨tls, ca⟩, e)) ∧
    typedb_credentials_new u p = ⟨u, p⟩ ∧
    typedb_transaction_options_new = ⟨none, none⟩ ∧
    typedb_query_options_new = ⟨none, none⟩ := by
  refine ⟨?_, ?_, rfl, rfl, rfl⟩
  · intro h; simp [typedb_driver_options_new, h]
  · intro h; simp [typedb_driver_options_new, h]

/-- Witness for C7 at concrete consistent and inconsistent TLS parameters. -/
theorem C7_witness :
    typedb_driver_options_new false (some "ca.pem") none =
      (.error .ConfigurationError, some (errMsg .ConfigurationError)) ∧
    typedb_driver_options_new true none none = (.ok ⟨true, none⟩, none) :=
  ⟨(C7_option_constructors false (some "ca.pem") none "u" "p").1 rfl,
   (C7_option_constructors true none none "u" "p").2.1 rfl⟩

/-- C9: every release operation at the boundary is a total function with no
error channel: the free and drop operations return unit on every input,
closing a connection leaves it closed, closing a transaction leaves it in a
terminal state, and aborting or dropping a future leaves it consumed. -/
theorem C9_release_never_fails (s : String) (b : List Nat) (n : Nat) (c : Credentials)
    (dopts : DriverOptions) (topts : TransactionOptions) (qopts : QueryOptions)
    (d : Driver) (t : Transaction) (f : PendingQuery) :
    typedb_free_string s = () ∧
    typedb_free_bytes b n = () ∧
    typedb_credentials_drop c = () ∧
    typedb_driver_options_drop dopts = () ∧
    typedb_transaction_options_drop topts = () ∧
    typedb_query_options_drop qopts = () ∧
    (typedb_driver_close d).isOpen = false ∧
    (typedb_transaction_close t).state.isTerminal = true ∧
    (typedb_future_abort f).state.isConsumed = true ∧
    (typedb_future_drop f).state.isConsumed = true := by
  obtain ⟨ts, tdb, tk, topt⟩ := t
  obtain ⟨fs, foc⟩ := f
  refine ⟨rfl, rfl, rfl, rfl, rfl, rfl, rfl, ?_, ?_, ?_⟩
  · cases ts <;> rfl
  · cases fs <;> rfl
  · cases fs <;> rfl

/-- C10: the three const-handle observers are pure reads: one observation
leaves the world unchanged, any sequence of observations leaves it
unchanged, observations commute, and an observation changes no subsequent
operation result, shown here for commit. -/
theorem C10_observers_pure_reads (os : List Observer) (o o1 o2 : Observer) (w : World)
    (net : Bool) (e : Option String) :
    (observe o w).2 = w ∧
    runObservers os w = w ∧
    (observe o1 (observe o2 w).2).1 = (observe o1 w).1 ∧
    typedb_transaction_commit net (runObservers os w).txn e =
      typedb_transaction_commit net w.txn e := by
  refine ⟨observe_state_fixed o w, runObservers_fixed os w, ?_, ?_⟩
  · rw [observe_state_fixed]
  · rw [runObservers_fixed]

/-- C2: every catalog operation and typedb_transaction_open fail with
StateError on a closed connection, and typedb_transaction_query_async fails
synchronously with StateError, leaving the transaction untouched, exactly
when the transaction is not open. -/
theorem C2_closed_handle_state_error (net : Bool) (d : Driver) (x q : String) (ty : Int)
    (topts : TransactionOptions) (qopts : QueryOptions) (t : Transaction)
    (oc : Option QueryResult) (e : Option String) :
    (d.isOpen = false →
      (typedb_databases_all net d e).1 = .error .StateError ∧
      (typedb_databases_create net d x e).1 = .error .StateError ∧
      (typedb_databases_contains net d x e).1 = .error .StateError ∧
      (typedb_database_schema net d x e).1 = .error .StateError ∧
      (typedb_database_delete net d x e).1 = .error .StateError ∧
      (typedb_transaction_open net d x ty topts e).1 = .error .StateError) ∧
    (t.state ≠ .Open →
      typedb_transaction_query_async t q oc qopts e =
        (.error .StateError, t, some (errMsg .StateError))) ∧
    (t.state = .Open → isOkE (typedb_transaction_query_async t q oc qopts e).1 = true) := by
  refine ⟨?_, ?_, ?_⟩
  · intro h
    simp [typedb_databases_all, typedb_databases_create, typedb_databases_contains,
      typedb_database_schema, typedb_database_delete, typedb_transaction_open, h]
  · intro h
    simp [typedb_transaction_query_async, h]
  · intro h
    simp [typedb_transaction_query_async, h, isOkE]

/-- Witness for C2 at a concrete closed driver and closed transaction. -/
theorem C2_witness :
    (typedb_databases_create true sampleDriverClosed "x" none).1 = .error .StateError ∧
    typedb_transaction_query_async sampleTxnClosed "match" none typedb_query_options_new none =
      (.error .StateError, sampleTxnClosed, some (errMsg .StateError)) := by
  have h := C2_closed_handle_state_error true sampleDriverClosed "x" "match" 1
    typedb_transaction_options_new typedb_query_options_new sampleTxnClosed none none
  exact ⟨(h.1 rfl).2.1, h.2.1 (by decide)⟩

/-- C3: on an open transaction a failing commit reports TransactionError,
leaves the transaction in the terminal Closed state, and afterwards neither
query nor commit on it succeeds; the failing commit itself returns the
error rather than retrying. -/
theorem C3_failed_commit_terminal (t : Transaction) (e : Option String)
    (h : t.state = .Open) :
    (typedb_transaction_commit false t e).1 = .error .TransactionError ∧
    (typedb_transaction_commit false t e).2.1.state = .Closed ∧
    (∀ (net : Bool) (q : String) (qopts : QueryOptions) (e2 : Option String),
      (typedb_transaction_query net (typedb_transaction_commit false t e).2.1 q qopts e2).1 =
        .error .StateError) ∧
    (∀ (net : Bool) (e2 : Option String),
      (typedb_transaction_commit net (typedb_transaction_commit false t e).2.1 e2).1 =
        .error .StateError) := by
  refine ⟨?_, ?_, ?_, ?_⟩ <;>
    simp [typedb_transaction_commit, typedb_transaction_query, h]

/-- Witness for C3 at a concrete open transaction. -/
theorem C3_witness :
    (typedb_transaction_commit false sampleTxnOpen none).1 = .error .TransactionError ∧
    (typedb_transaction_commit true
      (typedb_transaction_commit false sampleTxnOpen none).2.1 none).1 =
      .error .StateError := by
  have h := C3_failed_commit_terminal sampleTxnOpen none rfl
  exact ⟨h.1, h.2.2.2 true none⟩

/-- C4: a second typedb_future_resolve on the same handle always fails with
StateError; from an unconsumed handle, resolve and abort each consume it
(one of resolve or abort terminates it exactly once), and on a consumed
handle abort changes nothing while resolve fails with StateError leaving
the handle unchanged. -/
theorem C4_future_single_termination (f : PendingQuery) (e1 e2 : Option String) :
    (typedb_future_resolve (typedb_future_resolve f e1).2.1 e2).1 = .error .StateError ∧
    (f.state.isConsumed = false →
      (typedb_future_resolve f e1).2.1.state = .Resolved ∧
      (typedb_future_abort f).state = .Aborted) ∧
    (f.state.isConsumed = true →
      typedb_future_abort f = f ∧
      typedb_future_resolve f e1 = (.error .StateError, f, some (errMsg .StateError))) := by
  obtain ⟨fs, foc⟩ := f
  refine ⟨?_, ?_, ?_⟩
  · cases fs <;> cases foc <;> rfl
  · intro h
    cases fs <;> cases foc <;>
      first
        | exact ⟨rfl, rfl⟩
        | simp [FutureState.isConsumed] at h
  · intro h
    cases fs <;>
      first
        | exact ⟨rfl, rfl⟩
        | simp [FutureState.isConsumed] at h

/-- Witness for C4 at a concrete pending future. -/
theorem C4_witness :
    (typedb_future_resolve (typedb_future_resolve samplePending none).2.1 none).1 =
      .error .StateError ∧
    (typedb_future_abort samplePending).state = .Aborted := by
  have h := C4_future_single_termination samplePending none none
  exact ⟨h.1, (h.2.1 rfl).2⟩

/-- C6: on an open connection a successful create of database x makes
contains x answer true, and a subsequent successful delete of x makes
contains x answer false. -/
theorem C6_database_catalog_roundtrip (net1 net2 : Bool) (d d1 d2 : Driver) (x : String)
    (e1 e2 e3 e4 eo1 eo2 : Option String)
    (hc : typedb_databases_create net1 d x e1 = (.ok (), d1, eo1)) :
    (typedb_databases_contains true d1 x e2).1 = .ok true ∧
    (typedb_database_delete net2 d1 x e3 = (.ok (), d2, eo2) →
      (typedb_databases_contains true d2 x e4).1 = .ok false) := by
  unfold typedb_databases_create at hc
  split at hc
  case isFalse => simp at hc
  case isTrue hOpen =>
    split at hc
    case isFalse => simp at hc
    case isTrue =>
      split at hc
      case isTrue => simp at hc
      case isFalse hMem =>
        injection hc with hr hc2
        injection hc2 with hd1 heo
        subst hd1
        constructor
        · simp [typedb_databases_contains, hOpen]
        · intro hd
          unfold typedb_database_delete at hd
          split at hd
          case isFalse hno => simp [hOpen] at hno
          case isTrue =>
            split at hd
            case isFalse => simp at hd
            case isTrue =>
              split at hd
              case isFalse hno => simp at hno
              case isTrue =>
                injection hd with hr2 hd2
                injection hd2 with hd2a heo2
                subst hd2a
                simp [typedb_databases_contains, hOpen, List.mem_filter]

/-- Witness for C6 at a concrete create and delete of database x. -/
theorem C6_witness :
    (typedb_databases_contains true sampleDriverX "x" none).1 = .ok true ∧
    (typedb_databases_contains true sampleDriver0 "x" none).1 = .ok false := by
  have h := C6_database_catalog_roundtrip true true sampleDriver0 sampleDriverX sampleDriver0
    "x" none none none none none none rfl
  exact ⟨h.1, h.2 rfl⟩

/-- The err channel convention holds for typedb_driver_options_new. -/
theorem errOk_driver_options_new (tls : Bool) (ca e : Option String) :
    errChannelOk (typedb_driver_options_new tls ca e).1 e
      (typedb_driver_options_new tls ca e).2 := by
  unfold typedb_driver_options_new
  split
  · exact errChannelOk_error _ _
  · exact errChannelOk_ok _ _

/-- The err channel convention holds for typedb_driver_open. -/
theorem errOk_driver_open (net : Bool) (addr : String) (c : Credentials)
    (opts : DriverOptions) (dbs : List String) (e : Option String) :
    errChannelOk (typedb_driver_open net addr c opts dbs e).1 e
      (typedb_driver_open net addr c opts dbs e).2 := by
  unfold typedb_driver_open
  split
  · exact errChannelOk_ok _ _
  · exact errChannelOk_error _ _

/-- The err channel convention holds for typedb_databases_all. -/
theorem errOk_databases_all (net : Bool) (d : Driver) (e : Option String) :
    errChannelOk (typedb_databases_all net d e).1 e (typedb_databases_all net d e).2 := by
  unfold typedb_databases_all
  split
  · split
    · exact errChannelOk_ok _ _
    · exact errChannelOk_error _ _
  · exact errChannelOk_error _ _

/-- The err channel convention holds for typedb_databases_create. -/
theorem errOk_databases_create (net : Bool) (d : Driver) (x : String) (e : Option String) :
    errChannelOk (typedb_databases_create net d x e).1 e
      (typedb_databases_create net d x e).2.2 := by
  unfold typedb_databases_create
  split
  · split
    · split
      · exact errChannelOk_error _ _
      · exact errChannelOk_ok _ _
    · exact errChannelOk_error _ _
  · exact errChannelOk_error _ _

/-- The err channel convention holds for typedb_databases_contains. -/
theorem errOk_databases_contains (net : Bool) (d : Driver) (x : String) (e : Option String) :
    errChannelOk (typedb_databases_contains net d x e).1 e
      (typedb_databases_contains net d x e).2 := by
  unfold typedb_databases_contains
  split
  · split
    · exact errChannelOk_ok _ _
    · exact errChannelOk_error _ _
  · exact errChannelOk_error _ _

/-- The err channel convention holds for typedb_database_schema. -/
theorem errOk_database_schema (net : Bool) (d : Driver) (x : String) (e : Option String) :
    errChannelOk (typedb_database_schema net d x e).1 e
      (typedb_database_schema net d x e).2 := by
  unfold typedb_database_schema
  split
  · split
    · split
      · exact errChannelOk_ok _ _
      · exact errChannelOk_error _ _
    · exact errChannelOk_error _ _
  · exact errChannelOk_error _ _

/-- The err channel convention holds for typedb_database_delete. -/
theorem errOk_database_delete (net : Bool) (d : Driver) (x : String) (e : Option String) :
    errChannelOk (typedb_database_delete net d x e).1 e
      (typedb_database_delete net d x e).2.2 := by
  unfold typedb_database_delete
  split
  · split
    · split
      · exact errChannelOk_ok _ _
      · exact errChannelOk_error _ _
    · exact errChannelOk_error _ _
  · exact errChannelOk_error _ _

/-- The err channel convention holds for typedb_transaction_open. -/
theorem errOk_transaction_open (net : Bool) (d : Driver) (x : String) (ty : Int)
    (topts : TransactionOptions) (e : Option String) :
    errChannelOk (typedb_transaction_open net d x ty topts e).1 e
      (typedb_transaction_open net d x ty topts e).2 := by
  unfold typedb_transaction_open
  split
  · split
    · exact errChannelOk_ok _ _
    · exact errChannelOk_error _ _
  · exact errChannelOk_error _ _

/-- The err channel convention holds for typedb_transaction_query. -/
theorem errOk_transaction_query (net : Bool) (t : Transaction) (q : String)
    (qopts : QueryOptions) (e : Option String) :
    errChannelOk (typedb_transaction_query net t q qopts e).1 e
      (typedb_transaction_query net t q qopts e).2.2 := by
  unfold typedb_transaction_query
  split
  · split
    · exact errChannelOk_ok _ _
    · exact errChannelOk_error _ _
  · exact errChannelOk_error _ _

/-- The err channel convention holds for typedb_transaction_commit. -/
theorem errOk_transaction_commit (net : Bool) (t : Transaction) (e : Option String) :
    errChannelOk (typedb_transaction_commit net t e).1 e
      (typedb_transaction_commit net t e).2.2 := by
  unfold typedb_transaction_commit
  split
  · split
    · exact errChannelOk_ok _ _
    · exact errChannelOk_error _ _
  · exact errChannelOk_error _ _

/-- The err channel convention holds for typedb_transaction_rollback. -/
theorem errOk_transaction_rollback (t : Transaction) (e : Option String) :
    errChannelOk (typedb_transaction_rollback t e).1 e
      (typedb_transaction_rollback t e).2.2 := by
  unfold typedb_transaction_rollback
  split
  · exact errChannelOk_error _ _
  · split
    · exact errChannelOk_ok _ _
    · exact errChannelOk_ok _ _

/-- The err channel convention holds for typedb_transaction_query_async. -/
theorem errOk_transaction_query_async (t : Transaction) (q : String)
    (oc : Option QueryResult) (qopts : QueryOptions) (e : Option String) :
    errChannelOk (typedb_transaction_query_async t q oc qopts e).1 e
      (typedb_transaction_query_async t q oc qopts e).2.2 := by
  unfold typedb_transaction_query_async
  split
  · exact errChannelOk_ok _ _
  · exact errChannelOk_error _ _

/-- The err channel convention holds for typedb_future_resolve. -/
theorem errOk_future_resolve (f : PendingQuery) (e : Option String) :
    errChannelOk (typedb_future_resolve f e).1 e (typedb_future_resolve f e).2.2 := by
  unfold typedb_future_resolve
  split
  · exact errChannelOk_error _ _
  · split
    · exact errChannelOk_ok _ _
    · exact errChannelOk_error _ _

/-- C8: every fallible boundary operation writes the err_out channel
exactly on failure: a successful call leaves the stored content unchanged
and a failing call stores the error message there. -/
theorem C8_error_channel_frame (net tls : Bool) (ca e : Option String)
    (addr x q : String) (c : Credentials) (dopts : DriverOptions) (dbs : List String)
    (d : Driver) (ty : Int) (topts : TransactionOptions) (qopts : QueryOptions)
    (t : Transaction) (oc : Option QueryResult) (f : PendingQuery) :
    errChannelOk (typedb_driver_options_new tls ca e).1 e
      (typedb_driver_options_new tls ca e).2 ∧
    errChannelOk (typedb_driver_open net addr c dopts dbs e).1 e
      (typedb_driver_open net addr c dopts dbs e).2 ∧
    errChannelOk (typedb_databases_all net d e).1 e (typedb_databases_all net d e).2 ∧
    errChannelOk (typedb_databases_create net d x e).1 e
      (typedb_databases_create net d x e).2.2 ∧
    errChannelOk (typedb_databases_contains net d x e).1 e
      (typedb_databases_contains net d x e).2 ∧
    errChannelOk (typedb_database_schema net d x e).1 e
      (typedb_database_schema net d x e).2 ∧
    errChannelOk (typedb_database_delete net d x e).1 e
      (typedb_database_delete net d x e).2.2 ∧
    errChannelOk (typedb_transaction_open net d x ty topts e).1 e
      (typedb_transaction_open net d x ty topts e).2 ∧
    errChannelOk (typedb_transaction_query net t q qopts e).1 e
      (typedb_transaction_query net t q qopts e).2.2 ∧
    errChannelOk (typedb_transaction_commit net t e).1 e
      (typedb_transaction_commit net t e).2.2 ∧
    errChannelOk (typedb_transaction_rollback t e).1 e
      (typedb_transaction_rollback t e).2.2 ∧
    errChannelOk (typedb_transaction_query_async t q oc qopts e).1 e
      (typedb_transaction_query_async t q oc qopts e).2.2 ∧
    errChannelOk (typedb_future_resolve f e).1 e (typedb_future_resolve f e).2.2 :=
  ⟨errOk_driver_options_new tls ca e,
   errOk_driver_open net addr c dopts dbs e,
   errOk_databases_all net d e,
   errOk_databases_create net d x e,
   errOk_databases_contains net d x e,
   errOk_database_schema net d x e,
   errOk_database_delete net d x e,
   errOk_transaction_open net d x ty topts e,
   errOk_transaction_query net t q qopts e,
   errOk_transaction_commit net t e,
   errOk_transaction_rollback t e,
   errOk_transaction_query_async t q oc qopts e,
   errOk_future_resolve f e⟩

/-- Witness for C8 at a concrete succeeding and a concrete failing
commit. -/
theorem C8_witness :
    (typedb_transaction_commit true sampleTxnOpen none).2.2 = none ∧
    (typedb_transaction_commit false sampleTxnOpen none).2.2 =
      some (errMsg .TransactionError) := by
  have h1 := C8_error_channel_frame true true none none "localhost:1729" "x" "match"
    sampleCreds sampleDOpts [] sampleDriver0 1 typedb_transaction_options_new
    typedb_query_options_new sampleTxnOpen none samplePending
  have h2 := C8_error_channel_frame false true none none "localhost:1729" "x" "match"
    sampleCreds sampleDOpts [] sampleDriver0 1 typedb_transaction_options_new
    typedb_query_options_new sampleTxnOpen none samplePending
  exact ⟨(h1.2.2.2.2.2.2.2.2.2.1).1 rfl,
         (h2.2.2.2.2.2.2.2.2.2.1).2 .TransactionError rfl⟩

end TypeDB
